import Mathlib

/-!
Shallow embedding of yarvk's `src/yarvk/src/pipeline.rs` (graphics pipeline
object lifecycle) and the slice of the command-buffer recording API that
`pipeline.rs` extends.  Native Vulkan handles are modelled as natural
numbers; the driver's fallible `create*` entry points are modelled as
oracle functions supplied by the caller, returning `Except VkResult h`.
`Arc<T>` fields are modelled as plain fields together with an explicit
`retainedRefs` view listing the reference-counted objects a structure
keeps alive.
-/

namespace Yarvk

/-- Native driver status code (`ash::vk::Result`), an opaque error code. -/
structure VkResult where
  code : Int
  deriving DecidableEq, Repr

/-- Modelled from the spec: `Device` (crate::device, not under src/) is an
opaque reference-counted factory object; only its identity matters here. -/
structure Device where
  id : Nat
  deriving DecidableEq, Repr

/-- Modelled from the spec: `DescriptorSetLayout` (crate::descriptor_pool,
not under src/) wraps a native descriptor-set-layout handle; `pipeline.rs`
reads only `ash_vk_descriptor_set_layout`. -/
structure DescriptorSetLayout where
  device : Device
  ash_vk_descriptor_set_layout : Nat
  deriving DecidableEq, Repr

/-- Modelled from the spec: `RenderPass` (crate::render_pass, not under
src/) wraps a native render-pass handle; `pipeline.rs` reads only
`ash_vk_renderpass`. -/
structure RenderPass where
  device : Device
  ash_vk_renderpass : Nat
  deriving DecidableEq, Repr

/-- Modelled from the spec: `SubpassIndex` (crate::render_pass::subpass,
not under src/) is a newtype over the native subpass index (`.0`). -/
structure SubpassIndex where
  val : Nat
  deriving DecidableEq, Repr

/-- Modelled from the spec: `ShaderModule` (crate::shader_module, not under
src/) wraps a native shader-module handle. -/
structure ShaderModule where
  device : Device
  handle : Nat
  deriving DecidableEq, Repr

/-- `ash::vk::PushConstantRange`: plain value data (stage flags, offset,
size). -/
structure PushConstantRange where
  stage_flags : Nat
  offset : Nat
  size : Nat
  deriving DecidableEq, Repr

/-- A reference-counted object that a structure can keep alive by holding
an `Arc` to it.  One constructor per resource kind appearing in
`pipeline.rs`. -/
inductive Ref where
  | device (id : Nat)
  | descriptorSetLayout (handle : Nat)
  | renderPass (handle : Nat)
  | shaderModule (handle : Nat)
  | pipelineLayout (handle : Nat)
  deriving DecidableEq, Repr

/-! ## Pipeline layout (`PipelineLayout`, `PipelineLayoutBuilder`) -/

/-- `PipelineLayout` (pipeline.rs lines 34-37): owns the device reference
and the native layout handle, and nothing else. -/
structure PipelineLayout where
  device : Device
  ash_vk_pipeline_layout : Nat
  deriving DecidableEq, Repr

/-- The reference-counted objects a `PipelineLayout` value holds `Arc`s to:
exactly its `device : Arc<Device>` field. -/
def PipelineLayout.retainedRefs (pl : PipelineLayout) : List Ref :=
  [Ref.device pl.device.id]

/-- `PipelineLayoutBuilder` (pipeline.rs lines 61-65). -/
structure PipelineLayoutBuilder where
  device : Device
  set_layouts : List DescriptorSetLayout
  push_constant_ranges : List PushConstantRange
  deriving DecidableEq, Repr

/-- `PipelineLayout::builder` (pipeline.rs lines 40-46): fresh builder with
empty lists. -/
def PipelineLayout.builder (device : Device) : PipelineLayoutBuilder :=
  { device := device, set_layouts := [], push_constant_ranges := [] }

/-- `PipelineLayoutBuilder::add_set_layout` (pipeline.rs lines 68-71):
appends to the ordered list. -/
def PipelineLayoutBuilder.add_set_layout (b : PipelineLayoutBuilder)
    (set_layout : DescriptorSetLayout) : PipelineLayoutBuilder :=
  { b with set_layouts := b.set_layouts ++ [set_layout] }

/-- `PipelineLayoutBuilder::add_push_constant_range` (pipeline.rs lines
72-78): appends to the ordered list. -/
def PipelineLayoutBuilder.add_push_constant_range (b : PipelineLayoutBuilder)
    (push_constant_range : PushConstantRange) : PipelineLayoutBuilder :=
  { b with push_constant_ranges := b.push_constant_ranges ++ [push_constant_range] }

/-- The native creation request `ash::vk::PipelineLayoutCreateInfo` as
assembled by `build` (pipeline.rs lines 80-88): the set-layout handles and
the push-constant ranges, each in insertion order. -/
structure PipelineLayoutCreateInfo where
  set_layouts : List Nat
  push_constant_ranges : List PushConstantRange
  deriving DecidableEq, Repr

/-- The request `PipelineLayoutBuilder::build` assembles (pipeline.rs lines
80-88): maps each stored set layout to its native handle and copies the
ranges. -/
def PipelineLayoutBuilder.createInfo (b : PipelineLayoutBuilder) :
    PipelineLayoutCreateInfo :=
  { set_layouts := b.set_layouts.map (fun l => l.ash_vk_descriptor_set_layout)
    push_constant_ranges := b.push_constant_ranges }

/-- `PipelineLayoutBuilder::build` (pipeline.rs lines 79-100): issues one
native `create_pipeline_layout` call (the `oracle`) on the assembled
request; on success wraps the returned handle with the device reference,
on failure propagates the driver error.  The builder (including its
`Arc<DescriptorSetLayout>`s) is consumed; the result retains none of the
set layouts. -/
def PipelineLayoutBuilder.build (b : PipelineLayoutBuilder)
    (oracle : PipelineLayoutCreateInfo → Except VkResult Nat) :
    Except VkResult PipelineLayout :=
  match oracle b.createInfo with
  | Except.ok ash_vk_pipeline_layout =>
      Except.ok { device := b.device, ash_vk_pipeline_layout := ash_vk_pipeline_layout }
  | Except.error e => Except.error e

/-- One call in a `PipelineLayoutBuilder` call sequence: either
`add_set_layout` or `add_push_constant_range`. -/
inductive LayoutOp where
  | addSet (l : DescriptorSetLayout)
  | addRange (r : PushConstantRange)
  deriving DecidableEq, Repr

/-- Apply a sequence of builder calls left to right. -/
def applyLayoutOps (b : PipelineLayoutBuilder) (ops : List LayoutOp) :
    PipelineLayoutBuilder :=
  ops.foldl
    (fun b op =>
      match op with
      | LayoutOp.addSet l => b.add_set_layout l
      | LayoutOp.addRange r => b.add_push_constant_range r)
    b

/-- The set layouts a call sequence registers, in call order. -/
def layoutOpSets (ops : List LayoutOp) : List DescriptorSetLayout :=
  ops.filterMap (fun op =>
    match op with
    | LayoutOp.addSet l => some l
    | LayoutOp.addRange _ => none)

/-- The push-constant ranges a call sequence registers, in call order. -/
def layoutOpRanges (ops : List LayoutOp) : List PushConstantRange :=
  ops.filterMap (fun op =>
    match op with
    | LayoutOp.addSet _ => none
    | LayoutOp.addRange r => some r)

theorem applyLayoutOps_set_layouts (b : PipelineLayoutBuilder)
    (ops : List LayoutOp) :
    (applyLayoutOps b ops).set_layouts = b.set_layouts ++ layoutOpSets ops := by
  induction ops generalizing b with
  | nil => simp [applyLayoutOps, layoutOpSets]
  | cons op rest ih =>
      cases op with
      | addSet l =>
          simp [applyLayoutOps, layoutOpSets, List.foldl_cons,
            PipelineLayoutBuilder.add_set_layout] at *
          rw [ih]; simp
      | addRange r =>
          simp [applyLayoutOps, layoutOpSets, List.foldl_cons,
            PipelineLayoutBuilder.add_push_constant_range] at *
          rw [ih]

theorem applyLayoutOps_ranges (b : PipelineLayoutBuilder)
    (ops : List LayoutOp) :
    (applyLayoutOps b ops).push_constant_ranges
      = b.push_constant_ranges ++ layoutOpRanges ops := by
  induction ops generalizing b with
  | nil => simp [applyLayoutOps, layoutOpRanges]
  | cons op rest ih =>
      cases op with
      | addSet l =>
          simp [applyLayoutOps, layoutOpRanges, List.foldl_cons,
            PipelineLayoutBuilder.add_set_layout] at *
          rw [ih]
      | addRange r =>
          simp [applyLayoutOps, layoutOpRanges, List.foldl_cons,
            PipelineLayoutBuilder.add_push_constant_range] at *
          rw [ih]; simp

/-! ## Pipeline state descriptors

`PipelineTessellationStateCreateInfo` is defined in pipeline.rs (lines
103-131); the other descriptor types live in the `pipeline::*` submodules,
which are not under src/.  Per the spec (§3, §4.3) they are immutable pure
value objects with no ownership concerns, so each is modelled as an opaque
value payload. -/

/-- Modelled from the spec: `PipelineVertexInputStateCreateInfo`
(pipeline::vertex_input_state, not under src/), an immutable value
object. -/
structure PipelineVertexInputStateCreateInfo where
  payload : Nat := 0
  deriving DecidableEq, Repr

/-- Modelled from the spec: `PipelineInputAssemblyStateCreateInfo`
(pipeline::input_assembly_state, not under src/), an immutable value
object. -/
structure PipelineInputAssemblyStateCreateInfo where
  payload : Nat := 0
  deriving DecidableEq, Repr

/-- Modelled from the spec: `PipelineViewportStateCreateInfo`
(pipeline::viewport_state, not under src/), an immutable value object. -/
structure PipelineViewportStateCreateInfo where
  payload : Nat := 0
  deriving DecidableEq, Repr

/-- Modelled from the spec: `PipelineRasterizationStateCreateInfo`
(pipeline::rasterization_state, not under src/), an immutable value
object. -/
structure PipelineRasterizationStateCreateInfo where
  payload : Nat := 0
  deriving DecidableEq, Repr

/-- Modelled from the spec: `PipelineMultisampleStateCreateInfo`
(pipeline::multisample_state, not under src/), an immutable value
object. -/
structure PipelineMultisampleStateCreateInfo where
  payload : Nat := 0
  deriving DecidableEq, Repr

/-- Modelled from the spec: `PipelineDepthStencilStateCreateInfo`
(pipeline::depth_stencil_state, not under src/), an immutable value
object. -/
structure PipelineDepthStencilStateCreateInfo where
  payload : Nat := 0
  deriving DecidableEq, Repr

/-- Modelled from the spec: `PipelineColorBlendStateCreateInfo`
(pipeline::color_blend_state, not under src/), an immutable value
object. -/
structure PipelineColorBlendStateCreateInfo where
  payload : Nat := 0
  deriving DecidableEq, Repr

/-- `PipelineTessellationStateCreateInfo` (pipeline.rs lines 103-106):
one defaulted field. -/
structure PipelineTessellationStateCreateInfo where
  patch_control_points : Nat := 0
  deriving DecidableEq, Repr

/-- Modelled from the spec: the shader stage slots of
`ash::vk::ShaderStageFlags` as used by yarvk's typed wrapper
(pipeline::shader_stage, not under src/; the example uses `Vertex` and
`Fragment`). -/
inductive ShaderStageFlags where
  | Vertex
  | TessellationControl
  | TessellationEvaluation
  | Geometry
  | Fragment
  | Compute
  deriving DecidableEq, Repr

/-- Modelled from the spec: `PipelineShaderStageCreateInfo`
(pipeline::shader_stage, not under src/).  pipeline.rs reads its `stage`
key, its `module : Arc<ShaderModule>` and its `ash_builder()` view. -/
structure PipelineShaderStageCreateInfo where
  module : ShaderModule
  name : String
  stage : ShaderStageFlags
  deriving DecidableEq, Repr

/-- The native per-stage description `info.ash_builder()` pushes into the
creation request: the stage slot, the module's native handle and the entry
name. -/
structure AshStageDesc where
  stage : ShaderStageFlags
  module_handle : Nat
  name : String
  deriving DecidableEq, Repr

/-- Native view of one registered stage. -/
def PipelineShaderStageCreateInfo.ashBuilder
    (info : PipelineShaderStageCreateInfo) : AshStageDesc :=
  { stage := info.stage, module_handle := info.module.handle, name := info.name }

/-! ## Pipeline and PipelineBuilder -/

/-- `Pipeline` (pipeline.rs lines 133-138): the compiled pipeline.  Field
order matters: Rust drops fields in declaration order after running
`Drop::drop`. -/
structure Pipeline where
  device : Device
  render_pass_holder : Option RenderPass
  shader_modules_holder : List ShaderModule
  ash_vk_pipeline : Nat
  deriving DecidableEq, Repr

/-- The reference-counted objects a `Pipeline` value holds `Arc`s to: its
`device`, its optional `_render_pass_holder`, and every entry of
`_shader_modules_holder` — exactly the `Arc` fields of the struct. -/
def Pipeline.retainedRefs (p : Pipeline) : List Ref :=
  Ref.device p.device.id
    :: ((match p.render_pass_holder with
        | some rp => [Ref.renderPass rp.ash_vk_renderpass]
        | none => [])
      ++ p.shader_modules_holder.map (fun m => Ref.shaderModule m.handle))

/-- `PipelineBuilder` (pipeline.rs lines 161-176).  The `FxHashMap` of
stages is modelled as an association list keyed by stage slot, the
`FxHashSet` of dynamic states as a list. -/
structure PipelineBuilder where
  device : Device
  flags : Nat
  pipeline_vertex_input_state_create_info : PipelineVertexInputStateCreateInfo
  stages : List (ShaderStageFlags × PipelineShaderStageCreateInfo)
  input_assembly_state : PipelineInputAssemblyStateCreateInfo
  viewport_state : PipelineViewportStateCreateInfo
  tessellation_state : PipelineTessellationStateCreateInfo
  rasterization_state : PipelineRasterizationStateCreateInfo
  multisample_state : PipelineMultisampleStateCreateInfo
  depth_stencil_state : PipelineDepthStencilStateCreateInfo
  color_blend_state : PipelineColorBlendStateCreateInfo
  layout : PipelineLayout
  dynamic_states : List Nat
  render_pass : Option (RenderPass × SubpassIndex)
  deriving DecidableEq, Repr

/-- `Pipeline::builder` (pipeline.rs lines 141-158): all descriptors
defaulted, stages empty, no render pass; keeps the layout (and clones its
device reference). -/
def Pipeline.builder (layout : PipelineLayout) : PipelineBuilder :=
  { device := layout.device
    flags := 0
    pipeline_vertex_input_state_create_info := {}
    stages := []
    input_assembly_state := {}
    viewport_state := {}
    tessellation_state := {}
    rasterization_state := {}
    multisample_state := {}
    depth_stencil_state := {}
    color_blend_state := {}
    layout := layout
    dynamic_states := []
    render_pass := none }

/-- Lookup in the stage map (`FxHashMap::get` semantics on the association
list). -/
def lookupStage (stages : List (ShaderStageFlags × PipelineShaderStageCreateInfo))
    (key : ShaderStageFlags) : Option PipelineShaderStageCreateInfo :=
  match stages with
  | [] => none
  | (k, v) :: rest => if k = key then some v else lookupStage rest key

/-- `PipelineBuilder::add_stage` (pipeline.rs lines 183-189): inserts the
stage keyed by its stage slot; if a stage of the same slot was already
registered, the process panics with
VUID-VkGraphicsPipelineCreateInfo-stage-00726 (modelled as `none` — the
builder value is unobservable after the panic, so nothing is
overwritten). -/
def PipelineBuilder.add_stage (b : PipelineBuilder)
    (stage : PipelineShaderStageCreateInfo) : Option PipelineBuilder :=
  match lookupStage b.stages stage.stage with
  | some _ => none
  | none => some { b with stages := b.stages ++ [(stage.stage, stage)] }

/-- A whole sequence of `add_stage` calls, failing fast at the first
duplicate slot. -/
def addStages (b : PipelineBuilder)
    (ss : List PipelineShaderStageCreateInfo) : Option PipelineBuilder :=
  match ss with
  | [] => some b
  | s :: rest =>
      match b.add_stage s with
      | some b2 => addStages b2 rest
      | none => none

/-- `PipelineBuilder::vertex_input_state` (pipeline.rs lines 190-196):
replaces the descriptor. -/
def PipelineBuilder.vertex_input_state_setter (b : PipelineBuilder)
    (v : PipelineVertexInputStateCreateInfo) : PipelineBuilder :=
  { b with pipeline_vertex_input_state_create_info := v }

/-- `PipelineBuilder::input_assembly_state` (pipeline.rs lines 197-203):
replaces the descriptor. -/
def PipelineBuilder.input_assembly_state_setter (b : PipelineBuilder)
    (v : PipelineInputAssemblyStateCreateInfo) : PipelineBuilder :=
  { b with input_assembly_state := v }

/-- `PipelineBuilder::tessellation_state` (pipeline.rs lines 204-210):
replaces the descriptor. -/
def PipelineBuilder.tessellation_state_setter (b : PipelineBuilder)
    (v : PipelineTessellationStateCreateInfo) : PipelineBuilder :=
  { b with tessellation_state := v }

/-- `PipelineBuilder::viewport_state` (pipeline.rs lines 211-214): replaces
the descriptor. -/
def PipelineBuilder.viewport_state_setter (b : PipelineBuilder)
    (v : PipelineViewportStateCreateInfo) : PipelineBuilder :=
  { b with viewport_state := v }

/-- `PipelineBuilder::rasterization_state` (pipeline.rs lines 215-221):
replaces the descriptor. -/
def PipelineBuilder.rasterization_state_setter (b : PipelineBuilder)
    (v : PipelineRasterizationStateCreateInfo) : PipelineBuilder :=
  { b with rasterization_state := v }

/-- `PipelineBuilder::multisample_state` (pipeline.rs lines 222-228):
replaces the descriptor. -/
def PipelineBuilder.multisample_state_setter (b : PipelineBuilder)
    (v : PipelineMultisampleStateCreateInfo) : PipelineBuilder :=
  { b with multisample_state := v }

/-- `PipelineBuilder::depth_stencil_state` (pipeline.rs lines 229-235):
replaces the descriptor. -/
def PipelineBuilder.depth_stencil_state_setter (b : PipelineBuilder)
    (v : PipelineDepthStencilStateCreateInfo) : PipelineBuilder :=
  { b with depth_stencil_state := v }

/-- `PipelineBuilder::color_blend_state` (pipeline.rs lines 236-242):
replaces the descriptor. -/
def PipelineBuilder.color_blend_state_setter (b : PipelineBuilder)
    (v : PipelineColorBlendStateCreateInfo) : PipelineBuilder :=
  { b with color_blend_state := v }

/-- `PipelineBuilder::render_pass` (pipeline.rs lines 243-247): records the
render pass and subpass index. -/
def PipelineBuilder.render_pass_setter (b : PipelineBuilder)
    (render_pass : RenderPass) (subpass : SubpassIndex) : PipelineBuilder :=
  { b with render_pass := some (render_pass, subpass) }

/-- The native creation request `ash::vk::GraphicsPipelineCreateInfo` as
assembled by `PipelineBuilder::build` (pipeline.rs lines 293-313). -/
structure GraphicsPipelineCreateInfo where
  flags : Nat
  stages : List AshStageDesc
  vertex_input_state : PipelineVertexInputStateCreateInfo
  input_assembly_state : PipelineInputAssemblyStateCreateInfo
  tessellation_state : PipelineTessellationStateCreateInfo
  viewport_state : PipelineViewportStateCreateInfo
  rasterization_state : PipelineRasterizationStateCreateInfo
  multisample_state : PipelineMultisampleStateCreateInfo
  depth_stencil_state : PipelineDepthStencilStateCreateInfo
  color_blend_state : PipelineColorBlendStateCreateInfo
  layout : Nat
  dynamic_states : List Nat
  render_pass : Option (Nat × Nat)
  deriving DecidableEq, Repr

/-- The request `PipelineBuilder::build` assembles (pipeline.rs lines
260-313) from the builder's fields: native stage descriptions, the
descriptor values, the layout's native handle, the dynamic-state set and,
if present, the render pass handle plus subpass index. -/
def PipelineBuilder.createInfo (b : PipelineBuilder) : GraphicsPipelineCreateInfo :=
  { flags := b.flags
    stages := b.stages.map (fun p => p.2.ashBuilder)
    vertex_input_state := b.pipeline_vertex_input_state_create_info
    input_assembly_state := b.input_assembly_state
    tessellation_state := b.tessellation_state
    viewport_state := b.viewport_state
    rasterization_state := b.rasterization_state
    multisample_state := b.multisample_state
    depth_stencil_state := b.depth_stencil_state
    color_blend_state := b.color_blend_state
    layout := b.layout.ash_vk_pipeline_layout
    dynamic_states := b.dynamic_states
    render_pass := b.render_pass.map (fun rp => (rp.1.ash_vk_renderpass, rp.2.val)) }

/-- `PipelineBuilder::build` (pipeline.rs lines 260-333): collects the
`Arc<ShaderModule>` of every registered stage into
`shader_modules_holder`, moves the render pass `Arc` (if any) into
`render_pass_holder`, submits the assembled request to the driver (the
`oracle`, standing for `create_graphics_pipelines`); on success returns a
`Pipeline` owning the native handle plus those holders, on failure returns
the driver's error and nothing else.  The builder is taken by value, so a
failed build leaves no builder to retry; its `layout` `Arc` is dropped on
return in either case. -/
def PipelineBuilder.build (b : PipelineBuilder)
    (oracle : GraphicsPipelineCreateInfo → Except VkResult Nat) :
    Except VkResult Pipeline :=
  let shader_modules_holder := b.stages.map (fun p => p.2.module)
  let render_pass_holder := b.render_pass.map (fun rp => rp.1)
  match oracle b.createInfo with
  | Except.ok ash_vk_pipeline =>
      Except.ok
        { device := b.device
          render_pass_holder := render_pass_holder
          shader_modules_holder := shader_modules_holder
          ash_vk_pipeline := ash_vk_pipeline }
  | Except.error e => Except.error e

/-! ## Pipeline destruction order (`impl Drop for Pipeline`) -/

/-- One observable step of dropping a `Pipeline`. -/
inductive DropEvent where
  | destroyNativePipeline (handle : Nat)
  | releaseRef (r : Ref)
  deriving DecidableEq, Repr

/-- The deterministic event sequence of dropping a `Pipeline`: Rust runs
`Drop::drop` first — whose body (pipeline.rs lines 336-346) destroys the
native pipeline handle — and then drops the remaining fields in
declaration order (`device`, `_render_pass_holder`,
`_shader_modules_holder`; `ash_vk_pipeline` is a plain handle with no drop
glue), releasing each held `Arc` reference. -/
def Pipeline.dropEvents (p : Pipeline) : List DropEvent :=
  DropEvent.destroyNativePipeline p.ash_vk_pipeline
    :: (DropEvent.releaseRef (Ref.device p.device.id)
      :: ((match p.render_pass_holder with
          | some rp => [DropEvent.releaseRef (Ref.renderPass rp.ash_vk_renderpass)]
          | none => [])
        ++ p.shader_modules_holder.map
            (fun m => DropEvent.releaseRef (Ref.shaderModule m.handle))))

/-! ## Command buffer slice (`cmd_bind_pipeline`)

Only the `impl` block at pipeline.rs lines 348-365 is under src/; the
`CommandBuffer` type, its const-generic parameters and the other phases'
impl blocks live in crate::command::command_buffer. -/

/-- Modelled from the spec: command buffer `Level` (PRIMARY used by the
example; secondary buffers exist in the external API). -/
inductive Level where
  | PRIMARY
  | SECONDARY
  deriving DecidableEq, Repr

/-- Modelled from the spec: the recording-phase enumeration `State` of
crate::command::command_buffer (spec §3: Initial, Recording,
Executable, Invalid); pipeline.rs imports its `RECORDING` variant. -/
inductive State where
  | INITIAL
  | RECORDING
  | EXECUTABLE
  | INVALID
  deriving DecidableEq, Repr

/-- Modelled from the spec: the render-pass scope tag of
crate::command::command_buffer (outside versus inside a render pass). -/
inductive RenderPassScope where
  | OUTSIDE
  | INSIDE
  deriving DecidableEq, Repr

/-- The monomorphizations of `CommandBuffer<LEVEL, STATE, SCOPE>` on which
a `cmd_bind_pipeline` method exists: the impl block at pipeline.rs line
348 is generic over `LEVEL` and `SCOPE` and fixed at state `RECORDING`,
and no other impl in the crate defines `cmd_bind_pipeline` (modelled from
the spec: legal only while in Recording, either scope). -/
def cmdBindPipelineImpls : List (Level × State × RenderPassScope) :=
  [ (Level.PRIMARY, State.RECORDING, RenderPassScope.OUTSIDE)
  , (Level.PRIMARY, State.RECORDING, RenderPassScope.INSIDE)
  , (Level.SECONDARY, State.RECORDING, RenderPassScope.OUTSIDE)
  , (Level.SECONDARY, State.RECORDING, RenderPassScope.INSIDE) ]

/-- Whether `cmd_bind_pipeline` can be called on a
`CommandBuffer<l, st, sc>`: some impl block provides it at that
instantiation. -/
def cmdBindPipelineAvailable (l : Level) (st : State) (sc : RenderPassScope) : Bool :=
  decide ((l, st, sc) ∈ cmdBindPipelineImpls)

/-- Modelled from the spec: the fields of a recording-state
`CommandBuffer` that pipeline.rs reads — its pool reference (whose
`vk_command_pool` lock guards recording) and its native buffer handle. -/
structure CommandBufferRec where
  pool : Nat
  vk_command_buffer : Nat
  device : Device
  deriving DecidableEq, Repr

/-- One observable step of a recording operation, at pool-lock
granularity. -/
inductive PoolEvent where
  | acquirePoolLock (pool : Nat)
  | recordBindPipeline (buffer : Nat) (bind_point : Nat) (pipeline_handle : Nat)
  | releasePoolLock (pool : Nat)
  deriving DecidableEq, Repr

/-- `CommandBuffer::cmd_bind_pipeline` (pipeline.rs lines 350-364) as an
event trace: `self.command_pool.vk_command_pool.write()` acquires the
pool's exclusive lock into the guard `_pool`, the native
`cmd_bind_pipeline` mutates the buffer while the guard is live, and the
guard is dropped at the end of the block, releasing the lock. -/
def cmdBindPipelineTrace (cb : CommandBufferRec) (bind_point : Nat)
    (pipeline : Pipeline) : List PoolEvent :=
  [ PoolEvent.acquirePoolLock cb.pool
  , PoolEvent.recordBindPipeline cb.vk_command_buffer bind_point pipeline.ash_vk_pipeline
  , PoolEvent.releasePoolLock cb.pool ]

/-- Checks that, scanning a trace with `depth` pool-locks of `pool`
currently held, every buffer mutation happens while the lock is held. -/
def mutationsLocked (pool : Nat) : List PoolEvent → Nat → Bool
  | [], _ => true
  | PoolEvent.acquirePoolLock p :: rest, depth =>
      mutationsLocked pool rest (if p = pool then depth + 1 else depth)
  | PoolEvent.releasePoolLock p :: rest, depth =>
      mutationsLocked pool rest (if p = pool then depth - 1 else depth)
  | PoolEvent.recordBindPipeline _ _ _ :: rest, depth =>
      decide (0 < depth) && mutationsLocked pool rest depth

/-- Net pool-lock depth change of a trace: locks of `pool` acquired minus
released, starting from `depth`.  A scoped (RAII) lock leaves it at 0. -/
def lockDepthAfter (pool : Nat) : List PoolEvent → Nat → Nat
  | [], depth => depth
  | PoolEvent.acquirePoolLock p :: rest, depth =>
      lockDepthAfter pool rest (if p = pool then depth + 1 else depth)
  | PoolEvent.releasePoolLock p :: rest, depth =>
      lockDepthAfter pool rest (if p = pool then depth - 1 else depth)
  | PoolEvent.recordBindPipeline _ _ _ :: rest, depth =>
      lockDepthAfter pool rest depth

/-! ## Helper lemmas on the stage map -/

theorem lookupStage_append_left_none
    (l1 l2 : List (ShaderStageFlags × PipelineShaderStageCreateInfo))
    (k : ShaderStageFlags) (h : lookupStage l1 k = none) :
    lookupStage (l1 ++ l2) k = lookupStage l2 k := by
  induction l1 with
  | nil => rfl
  | cons p rest ih =>
      obtain ⟨k2, v⟩ := p
      by_cases hk : k2 = k
      · simp [lookupStage, hk] at h
      · simp only [List.cons_append, lookupStage, if_neg hk] at h ⊢
        exact ih h

theorem lookupStage_map_self (ss : List PipelineShaderStageCreateInfo)
    (hn : (ss.map (fun s => s.stage)).Nodup)
    (s2 : PipelineShaderStageCreateInfo) (h : s2 ∈ ss) :
    lookupStage (ss.map (fun s => (s.stage, s))) s2.stage = some s2 := by
  induction ss with
  | nil => cases h
  | cons s rest ih =>
      rw [List.map_cons, List.nodup_cons] at hn
      rcases List.mem_cons.mp h with rfl | hmem
      · simp [lookupStage]
      · have hne : s.stage ≠ s2.stage := by
          intro he
          exact hn.1 (he ▸ List.mem_map.mpr ⟨s2, hmem, rfl⟩)
        simpa [lookupStage, hne] using ih hn.2 hmem

theorem addStages_ok (b : PipelineBuilder)
    (ss : List PipelineShaderStageCreateInfo)
    (hd : ∀ s ∈ ss, lookupStage b.stages s.stage = none)
    (hn : (ss.map (fun s => s.stage)).Nodup) :
    addStages b ss
      = some { b with stages := b.stages ++ ss.map (fun s => (s.stage, s)) } := by
  induction ss generalizing b with
  | nil => simp [addStages]
  | cons s rest ih =>
      rw [List.map_cons, List.nodup_cons] at hn
      have h1 : lookupStage b.stages s.stage = none := hd s (by simp)
      have hstep : b.add_stage s
          = some { b with stages := b.stages ++ [(s.stage, s)] } := by
        simp [PipelineBuilder.add_stage, h1]
      have hd2 : ∀ s2 ∈ rest,
          lookupStage (b.stages ++ [(s.stage, s)]) s2.stage = none := by
        intro s2 hs2
        have hne : s.stage ≠ s2.stage := by
          intro he
          exact hn.1 (he ▸ List.mem_map.mpr ⟨s2, hs2, rfl⟩)
        rw [lookupStage_append_left_none _ _ _ (hd s2 (by simp [hs2]))]
        simp [lookupStage, hne]
      have ih2 := ih { b with stages := b.stages ++ [(s.stage, s)] } hd2 hn.2
      simp only [addStages, hstep, ih2]
      simp

/-! ## Claim theorems -/

/-- C1: for every sequence of `add_stage` calls, registering a second stage
whose stage slot is already registered panics (fails fast, modelled as
`none`) and never overwrites the previous stage, while registering stages
with pairwise-distinct stage slots always succeeds and records each stage
under its slot. -/
theorem add_stage_rejects_duplicates_records_distinct
    (b : PipelineBuilder) (s : PipelineShaderStageCreateInfo)
    (layout : PipelineLayout) (ss : List PipelineShaderStageCreateInfo)
    (s2 : PipelineShaderStageCreateInfo)
    (hdup : (lookupStage b.stages s.stage).isSome = true)
    (hn : (ss.map (fun x => x.stage)).Nodup)
    (hs2 : s2 ∈ ss) :
    b.add_stage s = none
    ∧ (addStages (Pipeline.builder layout) ss).isSome = true
    ∧ (addStages (Pipeline.builder layout) ss).bind
        (fun b2 => lookupStage b2.stages s2.stage) = some s2 := by
  have hempty : ∀ x ∈ ss, lookupStage (Pipeline.builder layout).stages x.stage = none := by
    intro x _
    rfl
  have hall := addStages_ok (Pipeline.builder layout) ss hempty hn
  refine ⟨?_, ?_, ?_⟩
  · unfold PipelineBuilder.add_stage
    obtain ⟨v, hv⟩ := Option.isSome_iff_exists.mp hdup
    rw [hv]
  · rw [hall]; rfl
  · rw [hall]
    simpa [Pipeline.builder, Option.bind] using lookupStage_map_self ss hn s2 hs2

/-- Concrete builder that already holds a vertex stage, for witnessing the
duplicate-rejection branch. -/
def devW : Device := ⟨0⟩

def layoutW : PipelineLayout := { device := devW, ash_vk_pipeline_layout := 11 }

def moduleV : ShaderModule := { device := devW, handle := 21 }

def moduleF : ShaderModule := { device := devW, handle := 22 }

def stageV : PipelineShaderStageCreateInfo :=
  { module := moduleV, name := "main", stage := ShaderStageFlags.Vertex }

def stageF : PipelineShaderStageCreateInfo :=
  { module := moduleF, name := "main", stage := ShaderStageFlags.Fragment }

def dupBuilder : PipelineBuilder :=
  { Pipeline.builder layoutW with stages := [(ShaderStageFlags.Vertex, stageV)] }

/-- C1 witness: concrete duplicate rejection and a concrete two-stage
success. -/
theorem add_stage_rejects_duplicates_records_distinct_witness :
    ((lookupStage dupBuilder.stages stageV.stage).isSome = true
      ∧ (List.map (fun x => x.stage) [stageV, stageF]).Nodup
      ∧ stageV ∈ [stageV, stageF])
    ∧ (dupBuilder.add_stage stageV = none
      ∧ (addStages (Pipeline.builder layoutW) [stageV, stageF]).isSome = true
      ∧ (addStages (Pipeline.builder layoutW) [stageV, stageF]).bind
          (fun b2 => lookupStage b2.stages stageV.stage) = some stageV) :=
  ⟨⟨by decide, by decide, by decide⟩,
    add_stage_rejects_duplicates_records_distinct dupBuilder stageV layoutW
      [stageV, stageF] stageV (by decide) (by decide) (by decide)⟩

/-- C2: `cmd_bind_pipeline` is available on a command buffer exactly when
its phase is `RECORDING`, for every level and both render-pass scopes; no
impl provides it in the `INITIAL`, `EXECUTABLE` or `INVALID` phases. -/
theorem cmd_bind_pipeline_recording_only
    (l : Level) (st : State) (sc : RenderPassScope) :
    cmdBindPipelineAvailable l st sc = decide (st = State.RECORDING) := by
  cases l <;> cases st <;> cases sc <;> rfl

/-- Concrete pipeline value for witnessing drop-order and retention
facts. -/
def renderPassW : RenderPass := { device := devW, ash_vk_renderpass := 31 }

def pipelineW : Pipeline :=
  { device := devW
    render_pass_holder := some renderPassW
    shader_modules_holder := [moduleV, moduleF]
    ash_vk_pipeline := 41 }

/-- C3: dropping a `Pipeline` destroys the native pipeline handle strictly
before any held reference (render pass, shader module, device) is
released: the destroy event precedes every release event in the drop
trace. -/
theorem pipeline_drop_native_handle_before_releases
    (p : Pipeline) (r : Ref)
    (_h : DropEvent.releaseRef r ∈ p.dropEvents) :
    (p.dropEvents).indexOf (DropEvent.destroyNativePipeline p.ash_vk_pipeline)
      < (p.dropEvents).indexOf (DropEvent.releaseRef r) := by
  have hne : DropEvent.destroyNativePipeline p.ash_vk_pipeline
      ≠ DropEvent.releaseRef r := by
    intro he; cases he
  unfold Pipeline.dropEvents
  rw [List.indexOf_cons_self]
  rw [List.indexOf_cons_ne _ hne]
  exact Nat.succ_pos _

/-- C3 witness: in the concrete pipeline's drop trace, the native destroy
precedes the release of the render-pass reference. -/
theorem pipeline_drop_native_handle_before_releases_witness :
    DropEvent.releaseRef (Ref.renderPass 31) ∈ pipelineW.dropEvents
    ∧ (pipelineW.dropEvents).indexOf
        (DropEvent.destroyNativePipeline pipelineW.ash_vk_pipeline)
      < (pipelineW.dropEvents).indexOf (DropEvent.releaseRef (Ref.renderPass 31)) :=
  ⟨by decide,
    pipeline_drop_native_handle_before_releases pipelineW (Ref.renderPass 31) (by decide)⟩

/-- The reference-counted dependencies a builder's pipeline will need: the
registered render pass (if any) and the shader module of every registered
stage. -/
def PipelineBuilder.dependencyRefs (b : PipelineBuilder) : List Ref :=
  (match b.render_pass with
    | some rp => [Ref.renderPass rp.1.ash_vk_renderpass]
    | none => [])
    ++ b.stages.map (fun st => Ref.shaderModule st.2.module.handle)

/-- C4: a successful `build()` returns a `Pipeline` whose render-pass
holder is exactly the render pass registered via `render_pass` and whose
shader-module holder is exactly the modules of the registered stages, so
every dependency reference of the builder is retained by the pipeline
(and, the structure being immutable with no operation but drop, stays
retained for the pipeline's whole lifetime). -/
theorem pipeline_build_retains_render_pass_and_shader_modules
    (b : PipelineBuilder)
    (oracle : GraphicsPipelineCreateInfo → Except VkResult Nat)
    (p : Pipeline) (r : Ref)
    (h : b.build oracle = Except.ok p)
    (hr : r ∈ b.dependencyRefs) :
    p.render_pass_holder = b.render_pass.map (fun rp => rp.1)
    ∧ p.shader_modules_holder = b.stages.map (fun st => st.2.module)
    ∧ r ∈ p.retainedRefs := by
  unfold PipelineBuilder.build at h
  cases ho : oracle b.createInfo with
  | error e => rw [ho] at h; cases h
  | ok handle =>
      rw [ho] at h
      cases h
      refine ⟨rfl, rfl, ?_⟩
      unfold PipelineBuilder.dependencyRefs at hr
      unfold Pipeline.retainedRefs
      rcases List.mem_append.mp hr with hrp | hmod
      · cases hcase : b.render_pass with
        | none => rw [hcase] at hrp; cases hrp
        | some rp =>
            rw [hcase] at hrp
            rcases List.mem_singleton.mp hrp with rfl
            simp [hcase]
      · rcases List.mem_map.mp hmod with ⟨st, hst, rfl⟩
        refine List.mem_cons.mpr (Or.inr (List.mem_append.mpr (Or.inr ?_)))
        exact List.mem_map.mpr ⟨st.2.module, List.mem_map.mpr ⟨st, hst, rfl⟩, rfl⟩

/-- Concrete builder with one stage and a render pass, plus an
always-succeeding driver oracle, for witnessing build-success facts. -/
def builderW : PipelineBuilder :=
  { Pipeline.builder layoutW with
      stages := [(ShaderStageFlags.Vertex, stageV)]
      render_pass := some (renderPassW, ⟨0⟩) }

def okOracleG : GraphicsPipelineCreateInfo → Except VkResult Nat :=
  fun _ => Except.ok 41

def builtW : Pipeline :=
  { device := devW
    render_pass_holder := some renderPassW
    shader_modules_holder := [moduleV]
    ash_vk_pipeline := 41 }

/-- C4 witness: the concretely built pipeline holds the render pass and
the vertex stage's module, and retains the render-pass reference. -/
theorem pipeline_build_retains_render_pass_and_shader_modules_witness :
    (builderW.build okOracleG = Except.ok builtW
      ∧ Ref.renderPass 31 ∈ builderW.dependencyRefs)
    ∧ (builtW.render_pass_holder = builderW.render_pass.map (fun rp => rp.1)
      ∧ builtW.shader_modules_holder = builderW.stages.map (fun st => st.2.module)
      ∧ Ref.renderPass 31 ∈ builtW.retainedRefs) :=
  ⟨⟨rfl, by decide⟩,
    pipeline_build_retains_render_pass_and_shader_modules builderW okOracleG
      builtW (Ref.renderPass 31) rfl (by decide)⟩

/-- Concrete descriptor-set layout and layout build for the C5
counterexample. -/
def dslW : DescriptorSetLayout := { device := devW, ash_vk_descriptor_set_layout := 7 }

def layoutOkOracle : PipelineLayoutCreateInfo → Except VkResult Nat :=
  fun _ => Except.ok 1

def cexLayoutBuilder : PipelineLayoutBuilder :=
  (PipelineLayout.builder devW).add_set_layout dslW

def cexLayout : PipelineLayout := { device := devW, ash_vk_pipeline_layout := 1 }

/-- C5 counterexample: a `PipelineLayout` built from one descriptor-set
layout retains no reference to it — `PipelineLayout` owns only the device
reference and the native handle (pipeline.rs lines 34-37, 95-98), so it
does not keep the descriptor-set layout alive. -/
theorem pipeline_layout_retains_no_set_layout_cex :
    cexLayoutBuilder.build layoutOkOracle = Except.ok cexLayout
    ∧ Ref.descriptorSetLayout dslW.ash_vk_descriptor_set_layout
        ∉ cexLayout.retainedRefs :=
  ⟨rfl, by decide⟩

/-- C5 (amended): a `Pipeline` built against a render pass retains the
render-pass reference for its whole lifetime, but a `PipelineLayout` does
not retain the descriptor-set layouts used to build it — it only reads
their native handles at build time, so a descriptor-set layout is kept
alive by the layout's caller, not by the layout object. -/
theorem pipeline_keeps_render_pass_layout_drops_set_layouts
    (b : PipelineBuilder)
    (oracle : GraphicsPipelineCreateInfo → Except VkResult Nat)
    (p : Pipeline) (rp : RenderPass) (idx : SubpassIndex)
    (lb : PipelineLayoutBuilder)
    (loracle : PipelineLayoutCreateInfo → Except VkResult Nat)
    (pl : PipelineLayout) (dslHandle : Nat)
    (h : b.build oracle = Except.ok p)
    (hrp : b.render_pass = some (rp, idx))
    (hl : lb.build loracle = Except.ok pl) :
    Ref.renderPass rp.ash_vk_renderpass ∈ p.retainedRefs
    ∧ Ref.descriptorSetLayout dslHandle ∉ pl.retainedRefs := by
  constructor
  · unfold PipelineBuilder.build at h
    cases ho : oracle b.createInfo with
    | error e => rw [ho] at h; cases h
    | ok handle =>
        rw [ho] at h
        cases h
        unfold Pipeline.retainedRefs
        simp [hrp]
  · unfold PipelineLayoutBuilder.build at hl
    cases hlo : loracle lb.createInfo with
    | error e => rw [hlo] at hl; cases hl
    | ok handle =>
        rw [hlo] at hl
        cases hl
        unfold PipelineLayout.retainedRefs
        simp

/-- C5 amended witness: concrete pipeline build retaining its render pass,
and concrete layout build retaining no descriptor-set layout. -/
theorem pipeline_keeps_render_pass_layout_drops_set_layouts_witness :
    (builderW.build okOracleG = Except.ok builtW
      ∧ builderW.render_pass = some (renderPassW, ⟨0⟩)
      ∧ cexLayoutBuilder.build layoutOkOracle = Except.ok cexLayout)
    ∧ (Ref.renderPass renderPassW.ash_vk_renderpass ∈ builtW.retainedRefs
      ∧ Ref.descriptorSetLayout 7 ∉ cexLayout.retainedRefs) :=
  ⟨⟨rfl, rfl, rfl⟩,
    pipeline_keeps_render_pass_layout_drops_set_layouts builderW okOracleG
      builtW renderPassW ⟨0⟩ cexLayoutBuilder layoutOkOracle cexLayout 7
      rfl rfl rfl⟩

/-- C6: a call sequence of N `add_set_layout`s and M
`add_push_constant_range`s yields a native creation request holding
exactly those N set-layout handles and M ranges, each in call order; with
no calls the request has empty lists and `build()` succeeds exactly when
the native creation call succeeds. -/
theorem pipeline_layout_round_trip (dev : Device) (ops : List LayoutOp)
    (oracle : PipelineLayoutCreateInfo → Except VkResult Nat) :
    (applyLayoutOps (PipelineLayout.builder dev) ops).createInfo.set_layouts
      = (layoutOpSets ops).map (fun l => l.ash_vk_descriptor_set_layout)
    ∧ (applyLayoutOps (PipelineLayout.builder dev) ops).createInfo.push_constant_ranges
      = layoutOpRanges ops
    ∧ (PipelineLayout.builder dev).createInfo
      = { set_layouts := [], push_constant_ranges := [] }
    ∧ ((PipelineLayout.builder dev).build oracle).isOk
      = (oracle { set_layouts := [], push_constant_ranges := [] }).isOk := by
  refine ⟨?_, ?_, rfl, ?_⟩
  · rw [PipelineLayoutBuilder.createInfo, applyLayoutOps_set_layouts]
    simp [PipelineLayout.builder]
  · rw [PipelineLayoutBuilder.createInfo, applyLayoutOps_ranges]
    simp [PipelineLayout.builder]
  · unfold PipelineLayoutBuilder.build
    cases ho : oracle { set_layouts := [], push_constant_ranges := [] } with
    | ok handle =>
        have : (PipelineLayout.builder dev).createInfo
            = { set_layouts := [], push_constant_ranges := [] } := rfl
        rw [this, ho]
        rfl
    | error e =>
        have : (PipelineLayout.builder dev).createInfo
            = { set_layouts := [], push_constant_ranges := [] } := rfl
        rw [this, ho]
        rfl

/-- Driver oracle that always fails, for witnessing error propagation. -/
def errOracleG : GraphicsPipelineCreateInfo → Except VkResult Nat :=
  fun _ => Except.error { code := -13 }

/-- C7: when the native pipeline creation call fails, `build()` returns
exactly the driver's error and no `Pipeline`: the error value is the whole
result (the builder was consumed by value, so no partial state
survives). -/
theorem pipeline_build_failure_propagates_error
    (b : PipelineBuilder)
    (oracle : GraphicsPipelineCreateInfo → Except VkResult Nat)
    (e : VkResult)
    (h : oracle b.createInfo = Except.error e) :
    b.build oracle = Except.error e := by
  unfold PipelineBuilder.build
  rw [h]

/-- C7 witness: the concrete builder with the always-failing oracle
returns exactly that driver error. -/
theorem pipeline_build_failure_propagates_error_witness :
    errOracleG builderW.createInfo = Except.error { code := -13 }
    ∧ builderW.build errOracleG = Except.error { code := -13 } :=
  ⟨rfl, pipeline_build_failure_propagates_error builderW errOracleG { code := -13 } rfl⟩

/-- C8: each of the eight fixed-function state setters replaces its
descriptor, so calling a setter with `v1` and then with `v2` leaves the
builder exactly as calling it once with `v2` (last-write-wins). -/
theorem fixed_function_setters_last_write_wins
    (b : PipelineBuilder)
    (u1 u2 : PipelineVertexInputStateCreateInfo)
    (a1 a2 : PipelineInputAssemblyStateCreateInfo)
    (t1 t2 : PipelineTessellationStateCreateInfo)
    (w1 w2 : PipelineViewportStateCreateInfo)
    (r1 r2 : PipelineRasterizationStateCreateInfo)
    (m1 m2 : PipelineMultisampleStateCreateInfo)
    (d1 d2 : PipelineDepthStencilStateCreateInfo)
    (c1 c2 : PipelineColorBlendStateCreateInfo) :
    (b.vertex_input_state_setter u1).vertex_input_state_setter u2
        = b.vertex_input_state_setter u2
    ∧ (b.input_assembly_state_setter a1).input_assembly_state_setter a2
        = b.input_assembly_state_setter a2
    ∧ (b.tessellation_state_setter t1).tessellation_state_setter t2
        = b.tessellation_state_setter t2
    ∧ (b.viewport_state_setter w1).viewport_state_setter w2
        = b.viewport_state_setter w2
    ∧ (b.rasterization_state_setter r1).rasterization_state_setter r2
        = b.rasterization_state_setter r2
    ∧ (b.multisample_state_setter m1).multisample_state_setter m2
        = b.multisample_state_setter m2
    ∧ (b.depth_stencil_state_setter d1).depth_stencil_state_setter d2
        = b.depth_stencil_state_setter d2
    ∧ (b.color_blend_state_setter c1).color_blend_state_setter c2
        = b.color_blend_state_setter c2 :=
  ⟨rfl, rfl, rfl, rfl, rfl, rfl, rfl, rfl⟩

/-- C9: `cmd_bind_pipeline` acquires the owning pool's exclusive lock
before touching the native command buffer and holds it for the whole
operation: its trace starts by acquiring the pool lock, ends by releasing
it, every buffer mutation in it happens at positive lock depth, and the
lock depth returns to zero — so the pool is never mutated outside the
exclusive lock, and two such operations on buffers of one pool serialize
on it. -/
theorem cmd_bind_pipeline_lock_discipline
    (cb : CommandBufferRec) (bind_point : Nat) (p : Pipeline) :
    (cmdBindPipelineTrace cb bind_point p).head?
        = some (PoolEvent.acquirePoolLock cb.pool)
    ∧ (cmdBindPipelineTrace cb bind_point p).getLast?
        = some (PoolEvent.releasePoolLock cb.pool)
    ∧ mutationsLocked cb.pool (cmdBindPipelineTrace cb bind_point p) 0 = true
    ∧ lockDepthAfter cb.pool (cmdBindPipelineTrace cb bind_point p) 0 = 0 := by
  refine ⟨rfl, rfl, ?_, ?_⟩
  · simp [cmdBindPipelineTrace, mutationsLocked]
  · simp [cmdBindPipelineTrace, lockDepthAfter]

/-- C10: a successfully built `Pipeline` retains no reference to any
`PipelineLayout`: its retained references count zero pipeline-layout
entries, so the builder's layout `Arc` having been dropped when `build()`
returned, the caller's own last release destroys the native layout even
while the pipeline is live. -/
theorem pipeline_retains_no_layout_ref
    (b : PipelineBuilder)
    (oracle : GraphicsPipelineCreateInfo → Except VkResult Nat)
    (p : Pipeline) (handle : Nat)
    (_h : b.build oracle = Except.ok p) :
    p.retainedRefs.count (Ref.pipelineLayout handle) = 0
    ∧ Ref.pipelineLayout handle ∉ p.retainedRefs := by
  have hnot : Ref.pipelineLayout handle ∉ p.retainedRefs := by
    intro hmem
    unfold Pipeline.retainedRefs at hmem
    rcases List.mem_cons.mp hmem with hdev | hrest
    · cases hdev
    rcases List.mem_append.mp hrest with hrp | hmod
    · cases hcase : p.render_pass_holder with
      | none => rw [hcase] at hrp; cases hrp
      | some rp =>
          rw [hcase] at hrp
          cases List.mem_singleton.mp hrp
    · rcases List.mem_map.mp hmod with ⟨m, _, he⟩
      cases he
  exact ⟨List.count_eq_zero.mpr hnot, hnot⟩

/-- C10 witness: the concretely built pipeline counts zero references to
the layout it was built against (native handle 11). -/
theorem pipeline_retains_no_layout_ref_witness :
    builderW.build okOracleG = Except.ok builtW
    ∧ (builtW.retainedRefs.count (Ref.pipelineLayout 11) = 0
      ∧ Ref.pipelineLayout 11 ∉ builtW.retainedRefs) :=
  ⟨rfl, pipeline_retains_no_layout_ref builderW okOracleG builtW 11 rfl⟩

end Yarvk
